import Mathlib

/-
Shallow embedding of the identity / session / verification-token core of
safatanc-connect-core (Rust), for checking the natural-language spec
against the code.

Conventions of the embedding:
- Postgres tables become Lean lists of row structures; every repository
  method becomes a pure function from the table (plus the values the Rust
  code obtains from the environment: current time, freshly generated
  random strings, freshly generated ids) to the new table and an
  `Except DatabaseError` result, mirroring `DatabaseResult` in
  src/db/error.rs.
- `chrono` timestamps and durations are modelled as `Int` (seconds),
  `Uuid` as `Nat`.
- The argon2 password hash is modelled as an injective tagging function:
  the only properties the code under study relies on are that verification
  succeeds exactly on the hashed password.
- A JWT is modelled as either a signed claims record (carrying the secret
  it was signed with) or a malformed blob; `decode` with a secret succeeds
  iff the secrets match, and then checks expiry, mirroring the
  `jsonwebtoken` error cases used in src/services/auth/token.rs.
-/

set_option autoImplicit false

namespace Connect

/-- Mirror of `DatabaseError` in src/db/error.rs (variants used by the
auth flows; connection-level failures are a single constructor since the
code never inspects them beyond wrapping). -/
inductive DatabaseError where
  | NotFound
  | Duplicate (msg : String)
  | ConnectionError
  deriving Repr, DecidableEq

/-- Mirror of `AppError` in src/errors/mod.rs. -/
inductive AppError where
  | Authentication (msg : String)
  | Authorization (msg : String)
  | Validation (msg : String)
  | NotFound (msg : String)
  | Database (e : DatabaseError)
  | Internal (msg : String)
  | InvalidToken (msg : String)
  | Unexpected (msg : String)
  deriving Repr, DecidableEq

/-- Error kind of an `AppError`: the enum variant (constructor) alone,
with the carried message stripped.  Two errors are distinguishable "in
kind" iff their kinds differ; errors of equal kind differ only in
message text. -/
def AppError.kind : AppError → String
  | .Authentication _ => "Authentication"
  | .Authorization _ => "Authorization"
  | .Validation _ => "Validation"
  | .NotFound _ => "NotFound"
  | .Database _ => "Database"
  | .Internal _ => "Internal"
  | .InvalidToken _ => "InvalidToken"
  | .Unexpected _ => "Unexpected"

/-! Validation service, src/services/validation/mod.rs.  The regexes are
translated character-class by character-class; special characters are
listed by ASCII code to keep the embedding readable. -/

/-- ASCII letter or digit. -/
def isAlnumAscii (c : Char) : Bool :=
  (97 ≤ c.toNat && c.toNat ≤ 122) || (65 ≤ c.toNat && c.toNat ≤ 90) ||
    (48 ≤ c.toNat && c.toNat ≤ 57)

/-- Characters admitted by the local-part class of the email regex in
`validate_email`: alphanumerics plus . ! # $ % & apostrophe * + / = ? ^ _
backquote vertical-bar tilde hyphen and the two curly brackets
(codes listed). -/
def emailLocalChar (c : Char) : Bool :=
  isAlnumAscii c ||
    [46, 33, 35, 36, 37, 38, 39, 42, 43, 47, 61, 63, 94, 95, 96,
      123, 124, 125, 126, 45].contains c.toNat

/-- Split a character list at every occurrence of the separator
(always returns at least one, possibly empty, group), the character
analogue of splitting a string on a one-character separator. -/
def splitOnChar (sep : Char) : List Char → List (List Char)
  | [] => [[]]
  | c :: rest =>
      match splitOnChar sep rest with
      | [] => [[]]
      | g :: gs => if c == sep then [] :: g :: gs else (c :: g) :: gs

/-- Domain label of the email regex: 1 to 63 characters, alphanumeric or
hyphen, first and last alphanumeric. -/
def domainLabelOk (cs : List Char) : Bool :=
  match cs with
  | [] => false
  | c :: rest =>
      (c :: rest).length ≤ 63 && isAlnumAscii c &&
        (c :: rest).all (fun d => isAlnumAscii d || d.toNat == 45) &&
        isAlnumAscii ((c :: rest).getLast (by simp))

/-- Mirror of `validate_email` (src/services/validation/mod.rs): one @,
nonempty local part over the local character class, dot-separated domain
labels. -/
def validate_email (email : String) : Bool :=
  match splitOnChar (Char.ofNat 64) email.toList with
  | [lp, dom] =>
      !lp.isEmpty && lp.all emailLocalChar &&
        (splitOnChar (Char.ofNat 46) dom).all domainLabelOk
  | _ => false

/-- Mirror of `validate_password_strength`: at least 8 characters, one
uppercase letter, one digit, one special character from the class in the
source (codes listed). -/
def validate_password_strength (password : String) : Bool :=
  let cs := password.toList
  8 ≤ cs.length &&
    cs.any (fun c => 65 ≤ c.toNat && c.toNat ≤ 90) &&
    cs.any (fun c => 48 ≤ c.toNat && c.toNat ≤ 57) &&
    cs.any (fun c =>
      [33, 64, 35, 36, 37, 94, 38, 42, 40, 41, 44, 46, 63, 58,
        123, 125, 124, 60, 62].contains c.toNat)

/-- Mirror of `validate_username`: 3 to 30 characters, alphanumeric,
underscore or hyphen. -/
def validate_username (username : String) : Bool :=
  let cs := username.toList
  3 ≤ cs.length && cs.length ≤ 30 &&
    cs.all (fun c => isAlnumAscii c || c.toNat == 95 || c.toNat == 45)

/-! Data model: src/models/user/user.rs and src/models/auth/token.rs. -/

/-- Mirror of the `users` table row (`User` in src/models/user/user.rs). -/
structure User where
  id : Nat
  email : String
  username : String
  password_hash : String
  full_name : Option String
  avatar_url : Option String
  global_role : String
  is_email_verified : Bool
  is_active : Bool
  last_login_at : Option Int
  created_at : Int
  updated_at : Int
  deleted_at : Option Int
  deriving Repr, DecidableEq

/-- Mirror of `CreateUserDto`. -/
structure CreateUserDto where
  email : String
  username : String
  password : String
  full_name : Option String
  avatar_url : Option String
  deriving Repr, DecidableEq

/-- Validation derived on `CreateUserDto` (validator attributes on the
struct in src/models/user/user.rs). -/
def CreateUserDto.valid (dto : CreateUserDto) : Bool :=
  validate_email dto.email && validate_username dto.username &&
    validate_password_strength dto.password

/-- Mirror of the `verification_tokens` table row (`VerificationToken`
in src/models/auth/token.rs). -/
structure VerificationToken where
  id : Nat
  user_id : Option Nat
  token : String
  token_type : String
  expires_at : Int
  used_at : Option Int
  created_at : Int
  updated_at : Int
  deriving Repr, DecidableEq

/-- Mirror of `CreateVerificationTokenDto`. -/
structure CreateVerificationTokenDto where
  user_id : Option Nat
  token_type : String
  expires_in : Int
  deriving Repr, DecidableEq

/-- Token type constant TOKEN_TYPE_EMAIL_VERIFICATION. -/
def TOKEN_TYPE_EMAIL_VERIFICATION : String := "email_verification"

/-- Token type constant TOKEN_TYPE_PASSWORD_RESET. -/
def TOKEN_TYPE_PASSWORD_RESET : String := "password_reset"

/-! Generic model of a SQL `UPDATE ... WHERE p RETURNING *` with
`fetch_optional`: rewrite every matching row with `f`, return the first
rewritten row (`none` when no row matched). -/

/-- Apply `f` to every element satisfying `p`; also return the image of
the first element that matched, if any. -/
def applyUpdate {α : Type} (p : α → Bool) (f : α → α) : List α → List α × Option α
  | [] => ([], none)
  | a :: rest =>
      if p a then (f a :: (applyUpdate p f rest).1, some (f a))
      else (a :: (applyUpdate p f rest).1, (applyUpdate p f rest).2)

/-- Run a conditional update and translate the `fetch_optional` result
as every repository method does: first rewritten row on success,
`NotFound` when no row matched. -/
def runUpdate {α : Type} (p : α → Bool) (f : α → α) (l : List α) :
    List α × Except DatabaseError α :=
  let res := applyUpdate p f l
  match res.2 with
  | some a => (res.1, .ok a)
  | none => (res.1, .error .NotFound)

/-! UserRepository, src/db/repositories/user.rs.  Every query filters on
`deleted_at IS NULL`; the unique constraints users_email_key and
users_username_key hold over the whole table (soft-deleted rows
included), which is why `create` checks duplicates against every row. -/

/-- Mirror of `UserRepository::find_by_email`:
`WHERE email = $1 AND deleted_at IS NULL`, `fetch_optional`,
`ok_or(NotFound)`. -/
def UserRepository.find_by_email (users : List User) (email : String) :
    Except DatabaseError User :=
  match users.find? (fun u => u.email == email && u.deleted_at.isNone) with
  | some u => .ok u
  | none => .error .NotFound

/-- Mirror of `UserRepository::find_by_username`. -/
def UserRepository.find_by_username (users : List User) (username : String) :
    Except DatabaseError User :=
  match users.find? (fun u => u.username == username && u.deleted_at.isNone) with
  | some u => .ok u
  | none => .error .NotFound

/-- Mirror of `UserRepository::find_by_id`. -/
def UserRepository.find_by_id (users : List User) (id : Nat) :
    Except DatabaseError User :=
  match users.find? (fun u => u.id == id && u.deleted_at.isNone) with
  | some u => .ok u
  | none => .error .NotFound

/-- Mirror of `UserRepository::create`: INSERT with defaults
global_role "user", is_email_verified false, is_active true; the unique
constraints on email and username are reported as `Duplicate` with the
messages the Rust code maps from the constraint names.  `newId` stands
for the id generated by the database. -/
def UserRepository.create (users : List User) (now : Int) (newId : Nat)
    (dto : CreateUserDto) (password_hash : String) :
    List User × Except DatabaseError User :=
  if users.any (fun u => u.email == dto.email) then
    (users, .error (.Duplicate "Email already exists"))
  else if users.any (fun u => u.username == dto.username) then
    (users, .error (.Duplicate "Username already exists"))
  else
    let u : User :=
      { id := newId, email := dto.email, username := dto.username,
        password_hash := password_hash, full_name := dto.full_name,
        avatar_url := dto.avatar_url, global_role := "user",
        is_email_verified := false, is_active := true,
        last_login_at := none, created_at := now, updated_at := now,
        deleted_at := none }
    (users ++ [u], .ok u)

/-- Mirror of `UserRepository::update_last_login`:
`UPDATE ... WHERE id = $1 AND deleted_at IS NULL RETURNING *`,
`fetch_optional`, `ok_or(NotFound)`. -/
def UserRepository.update_last_login (users : List User) (now : Int) (id : Nat) :
    List User × Except DatabaseError User :=
  runUpdate
    (fun u => u.id == id && u.deleted_at.isNone)
    (fun u => { u with last_login_at := some now, updated_at := now })
    users

/-- Mirror of `UserRepository::update_email_verification`. -/
def UserRepository.update_email_verification (users : List User) (now : Int)
    (id : Nat) (is_verified : Bool) : List User × Except DatabaseError User :=
  runUpdate
    (fun u => u.id == id && u.deleted_at.isNone)
    (fun u => { u with is_email_verified := is_verified, updated_at := now })
    users

/-- Mirror of `UserRepository::update_password`. -/
def UserRepository.update_password (users : List User) (now : Int)
    (id : Nat) (password_hash : String) : List User × Except DatabaseError User :=
  runUpdate
    (fun u => u.id == id && u.deleted_at.isNone)
    (fun u => { u with password_hash := password_hash, updated_at := now })
    users

/-! TokenRepository, src/db/repositories/token.rs. -/

/-- Redeemability predicate of the SQL in `TokenRepository::verify_token`:
`token = $1 AND type = $2 AND used_at IS NULL AND expires_at > NOW()`. -/
def tokenRedeemable (now : Int) (tok ty : String) (t : VerificationToken) : Bool :=
  t.token == tok && t.token_type == ty && t.used_at.isNone &&
    decide (now < t.expires_at)

/-- Mirror of `TokenRepository::verify_token`: select the row matching
the redeemability predicate, `fetch_optional`, `ok_or(NotFound)`. -/
def TokenRepository.verify_token (tokens : List VerificationToken) (now : Int)
    (tok ty : String) : Except DatabaseError VerificationToken :=
  match tokens.find? (tokenRedeemable now tok ty) with
  | some t => .ok t
  | none => .error .NotFound

/-- Mirror of `TokenRepository::mark_as_used`: the compare-and-set
`UPDATE ... SET used_at = $1 WHERE id = $2 AND used_at IS NULL
RETURNING *` with `fetch_optional`, `ok_or(NotFound)`. -/
def TokenRepository.mark_as_used (tokens : List VerificationToken) (now : Int)
    (token_id : Nat) : List VerificationToken × Except DatabaseError VerificationToken :=
  runUpdate
    (fun t => t.id == token_id && t.used_at.isNone)
    (fun t => { t with used_at := some now, updated_at := now })
    tokens

/-- Mirror of `TokenRepository::invalidate_by_user_and_type`:
`UPDATE ... SET used_at = $1 WHERE user_id = $2 AND type = $3 AND
used_at IS NULL` (no RETURNING; the Rust caller ignores the result). -/
def TokenRepository.invalidate_by_user_and_type (tokens : List VerificationToken)
    (now : Int) (user_id : Nat) (token_type : String) : List VerificationToken :=
  (applyUpdate
    (fun t => t.user_id == some user_id && t.token_type == token_type &&
      t.used_at.isNone)
    (fun t => { t with used_at := some now, updated_at := now })
    tokens).1

/-- Mirror of `TokenRepository::create`: INSERT computing
`expires_at = now + expires_in`; the unique constraint
verification_tokens_token_key on the token string is reported as
`Duplicate "Token already exists"`.  `newId` stands for the id generated
by the database. -/
def TokenRepository.create (tokens : List VerificationToken) (now : Int)
    (newId : Nat) (dto : CreateVerificationTokenDto) (tok : String) :
    List VerificationToken × Except DatabaseError VerificationToken :=
  if tokens.any (fun t => t.token == tok) then
    (tokens, .error (.Duplicate "Token already exists"))
  else
    let t : VerificationToken :=
      { id := newId, user_id := dto.user_id, token := tok,
        token_type := dto.token_type, expires_at := now + dto.expires_in,
        used_at := none, created_at := now, updated_at := now }
    (tokens ++ [t], .ok t)

/-! Password hashing, src/services/user/user_management.rs.  The argon2
hash is abstracted to an injective tag; `verify_password` succeeds
exactly when the stored hash is the hash of the supplied password,
failing with the Authentication message from the source otherwise (the
login flow collapses every failure of this call anyway). -/

/-- Model of `UserManagementService::hash_password` at a fixed salt. -/
def hashPassword (password : String) : String :=
  "argon2id$" ++ password

/-- Model of `UserManagementService::verify_password`. -/
def verify_password (password hash : String) : Except AppError Unit :=
  if hash == hashPassword password then .ok ()
  else .error (.Authentication "Email atau password salah")

/-! SessionTokenIssuer: src/services/auth/token.rs. -/

/-- Deployment configuration consumed by `TokenService`
(src/config/app.rs fields used there). -/
structure AppConfig where
  jwt_secret : String
  jwt_expiration : Int
  refresh_token_expiration : Int
  deriving Repr, DecidableEq

/-- Mirror of `Claims` in src/services/auth/token.rs. -/
structure Claims where
  sub : String
  exp : Int
  iat : Int
  email : String
  role : String
  deriving Repr, DecidableEq

/-- Model of an encoded JWT: either a well-formed token signed with some
secret, or a malformed blob (corrupted signature or garbage input are
both decode failures that are not ExpiredSignature). -/
inductive Jwt where
  | signed (claims : Claims) (secret : String)
  | malformed (raw : String)
  deriving Repr, DecidableEq

/-- Mirror of `TokenService::generate_tokens`: two tokens signed with
the configured secret, same claims except the expiry (access uses
jwt_expiration, refresh uses refresh_token_expiration). -/
def TokenService.generate_tokens (cfg : AppConfig) (now : Int) (user : User) :
    Jwt × Jwt :=
  let claims : Claims :=
    { sub := toString user.id, exp := now + cfg.jwt_expiration, iat := now,
      email := user.email, role := user.global_role }
  let refresh_claims : Claims :=
    { sub := toString user.id, exp := now + cfg.refresh_token_expiration,
      iat := now, email := user.email, role := user.global_role }
  (.signed claims cfg.jwt_secret, .signed refresh_claims cfg.jwt_secret)

/-- Mirror of `TokenService::verify_token`: decode with the configured
secret; the ExpiredSignature kind maps to
Authentication "Token sudah expired", every other decode failure maps to
Authentication "Token tidak valid". -/
def TokenService.verify_token (cfg : AppConfig) (now : Int) (t : Jwt) :
    Except AppError Claims :=
  match t with
  | .signed c s =>
      if s == cfg.jwt_secret then
        if c.exp ≤ now then .error (.Authentication "Token sudah expired")
        else .ok c
      else .error (.Authentication "Token tidak valid")
  | .malformed _ => .error (.Authentication "Token tidak valid")

/-! AuthOrchestrator: src/services/auth/auth.rs, and the HTTP handler
layer that calls it (src/api/auth/handlers.rs). -/

/-- Combined persistent state the auth flows touch. -/
structure AuthDb where
  users : List User
  tokens : List VerificationToken
  deriving Repr, DecidableEq

/-- Validation derived on `LoginDto`: email format on the email field,
nonempty password. -/
def LoginDto.valid (email password : String) : Bool :=
  validate_email email && 1 ≤ password.length

/-- Message produced by `validation_err_to_app_error` for a failing
`LoginDto`, for the single-failure cases exercised here (the
concatenation order when both fields fail at once follows the email
field first). -/
def LoginDto.validationError (email : String) : AppError :=
  if !validate_email email then .Validation "email: Invalid email format"
  else .Validation "password: Password cannot be empty"

/-- Mirror of `AuthService::login` (src/services/auth/auth.rs lines
48-82).  The account is looked up by email only; any lookup failure and
any password-verification failure are both collapsed to
Authentication "Invalid email or password"; the last-login update runs
inline before the response and its failure surfaces as a Database
error.  The result carries the post-update user row and the minted
token pair. -/
def AuthService.login (users : List User) (cfg : AppConfig) (now : Int)
    (email password : String) : List User × Except AppError (User × Jwt × Jwt) :=
  if !LoginDto.valid email password then
    (users, .error (LoginDto.validationError email))
  else
    match UserRepository.find_by_email users email with
    | .error _ => (users, .error (.Authentication "Invalid email or password"))
    | .ok u =>
        match verify_password password u.password_hash with
        | .error _ => (users, .error (.Authentication "Invalid email or password"))
        | .ok _ =>
            let pair := TokenService.generate_tokens cfg now u
            match UserRepository.update_last_login users now u.id with
            | (users2, .ok u2) => (users2, .ok (u2, pair.1, pair.2))
            | (users2, .error e) => (users2, .error (.Database e))

/-- Mirror of `AuthService::request_password_reset` (src/services/auth/
auth.rs lines 214-257): validate the email format, look the user up by
email mapping a missing row to `AppError::NotFound "User not found"`,
invalidate the existing password-reset tokens of that user (result
ignored), then create a fresh password-reset token with a 3600 second
expiry.  `tokenString` stands for the freshly generated random token and
`newTokenId` for the database-generated id. -/
def AuthService.request_password_reset (db : AuthDb) (now : Int)
    (tokenString : String) (newTokenId : Nat) (email : String) :
    AuthDb × Except AppError VerificationToken :=
  if !validate_email email then
    (db, .error (.Validation "invalid_email_format"))
  else
    match UserRepository.find_by_email db.users email with
    | .error .NotFound => (db, .error (.NotFound "User not found"))
    | .error e => (db, .error (.Database e))
    | .ok user =>
        let tokens1 := TokenRepository.invalidate_by_user_and_type db.tokens now
          user.id TOKEN_TYPE_PASSWORD_RESET
        match TokenRepository.create tokens1 now newTokenId
            { user_id := some user.id,
              token_type := TOKEN_TYPE_PASSWORD_RESET, expires_in := 3600 }
            tokenString with
        | (tokens2, .ok t) => ({ db with tokens := tokens2 }, .ok t)
        | (tokens2, .error e) => ({ db with tokens := tokens2 }, .error (.Database e))

/-- Mirror of the HTTP handler `request_password_reset`
(src/api/auth/handlers.rs lines 117-146): extract the email, call the
service and propagate its error with the question-mark operator, then
(on service success) look the user up again and hand the token to the
mailer, finally answering the fixed acknowledgement string.  The mailer
is an external collaborator and is modelled as succeeding. -/
def handleRequestPasswordReset (db : AuthDb) (now : Int)
    (tokenString : String) (newTokenId : Nat) (email : Option String) :
    AuthDb × Except AppError String :=
  match email with
  | none => (db, .error (.Validation "Email is required"))
  | some e =>
      match AuthService.request_password_reset db now tokenString newTokenId e with
      | (db2, .error err) => (db2, .error err)
      | (db2, .ok _) =>
          match UserRepository.find_by_email db2.users e with
          | .error _ => (db2, .error (.NotFound "User tidak ditemukan"))
          | .ok _ =>
              (db2, .ok "Password reset link sent if the email exists in our system")

/-- Mirror of `AuthService::register_user_with_verification`
(src/services/auth/auth.rs lines 134-172): validate the dto, hash the
password, create the user (mapping the duplicate constraint to a
Validation error), then create the first email-verification token with
a 86400 second expiry.  There is no transaction: each insert commits on
its own. -/
def AuthService.register_user_with_verification (db : AuthDb) (now : Int)
    (dto : CreateUserDto) (newUserId : Nat) (tokenString : String)
    (newTokenId : Nat) : AuthDb × Except AppError (User × VerificationToken) :=
  -- the per-field message assembly of validation_err_to_app_error is not
  -- modelled for this flow; the claims below exercise only valid dtos
  if !dto.valid then
    (db, .error (.Validation "Validation failed"))
  else
    let password_hash := hashPassword dto.password
    match UserRepository.create db.users now newUserId dto password_hash with
    | (users2, .error (.Duplicate msg)) =>
        ({ db with users := users2 }, .error (.Validation msg))
    | (users2, .error e) => ({ db with users := users2 }, .error (.Database e))
    | (users2, .ok user) =>
        match TokenRepository.create db.tokens now newTokenId
            { user_id := some user.id,
              token_type := TOKEN_TYPE_EMAIL_VERIFICATION, expires_in := 86400 }
            tokenString with
        | (tokens2, .ok t) => (⟨users2, tokens2⟩, .ok (user, t))
        | (tokens2, .error e) => (⟨users2, tokens2⟩, .error (.Database e))

/-- Mirror of `EmailService::generate_verification_token`
(src/services/email/email.rs lines 315-334): generate a random string
and insert a new email-verification token with a 24 hour expiry.  The
function performs no invalidation of earlier tokens of the same user
and purpose. -/
def EmailService.generate_verification_token (tokens : List VerificationToken)
    (now : Int) (tokenString : String) (newTokenId : Nat) (user_id : Nat) :
    List VerificationToken × Except AppError String :=
  match TokenRepository.create tokens now newTokenId
      { user_id := some user_id, token_type := TOKEN_TYPE_EMAIL_VERIFICATION,
        expires_in := 24 * 60 * 60 } tokenString with
  | (tokens2, .ok t) => (tokens2, .ok t.token)
  | (tokens2, .error e) => (tokens2, .error (.Database e))

/-! OAuthFederator: src/services/auth/oauth.rs.  The two network calls
(code exchange, profile fetch) are external; the embedding starts from
the parsed profile JSON, modelled as the optional fields the extraction
code reads. -/

/-- Parsed provider profile response as read by
`get_oauth_user_info_from_config` / `get_oauth_user_info_fallback`:
each field is the result of the corresponding `as_str` JSON access, and
`idText` is the `to_string + trim_matches` rendering of the id value
used for the numeric GitHub id. -/
structure OAuthProfile where
  idStr : Option String
  idText : String
  email : Option String
  login : Option String
  name : Option String
  avatar_url : Option String
  deriving Repr, DecidableEq

/-- Normalized profile: provider-native user id, email, display name,
avatar. -/
structure OAuthUserInfo where
  provider_user_id : String
  email : String
  name : String
  avatar_url : Option String
  deriving Repr, DecidableEq

/-- GitHub arm of the profile extraction in
`OAuthService::get_oauth_user_info_from_config` (src/services/auth/
oauth.rs lines 328-355): a missing email is synthesized as the native
login followed by the literal "@github.user"; a missing login is an
Authentication failure. -/
def extract_github (p : OAuthProfile) : Except AppError OAuthUserInfo :=
  let pid := match p.idStr with
    | some s => s
    | none => p.idText
  match p.email with
  | some e =>
      .ok { provider_user_id := pid, email := e,
            name := (p.name.getD (p.login.getD "GitHub User")),
            avatar_url := p.avatar_url }
  | none =>
      match p.login with
      | some l =>
          .ok { provider_user_id := pid, email := l ++ "@github.user",
                name := (p.name.getD (p.login.getD "GitHub User")),
                avatar_url := p.avatar_url }
      | none => .error (.Authentication "Username not provided by GitHub")

/-- Google arm of the profile extraction: id and email are required; a
missing email is an Authentication failure, never a synthesized
placeholder. -/
def extract_google (p : OAuthProfile) : Except AppError OAuthUserInfo :=
  match p.idStr with
  | none => .error (.Authentication "User ID not provided by OAuth provider")
  | some pid =>
      match p.email with
      | none => .error (.Authentication "Email not provided by OAuth provider")
      | some e =>
          .ok { provider_user_id := pid, email := e,
                name := p.name.getD "Google User",
                avatar_url := p.avatar_url }

/-- ASCII lowercase of a string, the model of `to_lowercase` on the
provider keys in play. -/
def lowerAscii (s : String) : String :=
  String.mk (s.toList.map (fun c =>
    if 65 ≤ c.toNat && c.toNat ≤ 90 then Char.ofNat (c.toNat + 32) else c))

/-- Provider dispatch of the profile extraction (the
`provider.to_lowercase()` match in src/services/auth/oauth.rs). -/
def extract_user_info (provider : String) (p : OAuthProfile) :
    Except AppError OAuthUserInfo :=
  if lowerAscii provider == "google" then extract_google p
  else if lowerAscii provider == "github" then extract_github p
  else .error (.Validation ("Unsupported OAuth provider: " ++ provider))

/-- Local part of an email: the model of
`email.split(at-sign).next().unwrap_or("user")` used to derive the
username base in the provisioning branch (the iterator always yields a
first piece, so the default never fires). -/
def emailLocalPart (email : String) : String :=
  match splitOnChar (Char.ofNat 64) email.toList with
  | [] => "user"
  | g :: _ => String.mk g

/-- Username candidate tried at a given attempt count by the
de-duplication loop in `OAuthService::handle_oauth_callback`: the base
name first, then base underscore attempt-number. -/
def usernameCandidate (base : String) : Nat → String
  | 0 => base
  | n + 1 => base ++ "_" ++ toString (n + 1)

/-- Loop condition of the de-duplication loop: the candidate is taken
iff `find_by_username` succeeds on it (soft-deleted holders do not
count, since the lookup filters them out). -/
def usernameTaken (users : List User) (s : String) : Bool :=
  (UserRepository.find_by_username users s).isOk

/-- Fuel-bounded unfolding of the while-loop
`while find_by_username(username).is_ok { attempt += 1; ... }`:
starting at `attempt`, return the first candidate not held by a
non-deleted user, giving up (returning the current candidate) when the
fuel runs out. -/
def resolveUsernameAux (users : List User) (base : String) :
    Nat → Nat → String
  | 0, attempt => usernameCandidate base attempt
  | fuel + 1, attempt =>
      if usernameTaken users (usernameCandidate base attempt) then
        resolveUsernameAux users base fuel (attempt + 1)
      else usernameCandidate base attempt

/-- Username resolution of the provisioning branch: the loop can need at
most one attempt per existing user, so `users.length + 1` fuel covers
every run the Rust loop performs. -/
def resolveUsername (users : List User) (base : String) : String :=
  resolveUsernameAux users base (users.length + 1) 0

/-- Row the provisioning insert produces before the email-verification
flip: the defaults of `UserRepository::create` applied to the dto built
in the provisioning branch. -/
def provisionedRow (now : Int) (newId : Nat) (info : OAuthUserInfo)
    (randomPassword uname : String) : User :=
  { id := newId, email := info.email, username := uname,
    password_hash := hashPassword randomPassword,
    full_name := some info.name, avatar_url := info.avatar_url,
    global_role := "user", is_email_verified := false, is_active := true,
    last_login_at := none, created_at := now, updated_at := now,
    deleted_at := none }

/-- Provisioning branch of `OAuthService::handle_oauth_callback`
(src/services/auth/oauth.rs lines 113-160), entered when no account
matches the normalized email: derive the username base from the local
part of the email, de-duplicate it against existing usernames, hash a
freshly generated random password, insert the account, then flip its
email-verification flag to true.  `randomPassword` stands for the
generated 32-character random password and `newId` for the
database-generated account id. -/
def provision_oauth_user (users : List User) (now : Int) (newId : Nat)
    (info : OAuthUserInfo) (randomPassword : String) :
    List User × Except AppError User :=
  let base := emailLocalPart info.email
  let uname := resolveUsername users base
  let password_hash := hashPassword randomPassword
  match UserRepository.create users now newId
      { email := info.email, username := uname, password := randomPassword,
        full_name := some info.name, avatar_url := info.avatar_url }
      password_hash with
  | (users2, .error (.Duplicate msg)) => (users2, .error (.Validation msg))
  | (users2, .error e) => (users2, .error (.Database e))
  | (users2, .ok u) =>
      match UserRepository.update_email_verification users2 now u.id true with
      | (users3, .ok u2) => (users3, .ok u2)
      | (users3, .error e) => (users3, .error (.Database e))

/-! Concrete sample data used by the closed witness, counterexample and
failing-input theorems. -/

/-- Sample deployment configuration: 1 hour access tokens, 7 day
refresh tokens. -/
def cfgSample : AppConfig :=
  { jwt_secret := "s3cret", jwt_expiration := 3600,
    refresh_token_expiration := 604800 }

/-- Sample active, verified account. -/
def userAlice : User :=
  { id := 1, email := "alice@example.com", username := "alice",
    password_hash := hashPassword "Passw0rd!", full_name := none,
    avatar_url := none, global_role := "USER", is_email_verified := true,
    is_active := true, last_login_at := none, created_at := 0,
    updated_at := 0, deleted_at := none }

/-- Sample account whose active flag is cleared. -/
def userInactive : User :=
  { id := 2, email := "bob@example.com", username := "bob",
    password_hash := hashPassword "Secret1!", full_name := none,
    avatar_url := none, global_role := "USER", is_email_verified := true,
    is_active := false, last_login_at := none, created_at := 0,
    updated_at := 0, deleted_at := none }

/-- Sample soft-deleted account. -/
def userDeleted : User :=
  { id := 3, email := "carol@example.com", username := "carol",
    password_hash := hashPassword "Passw0rd!", full_name := none,
    avatar_url := none, global_role := "USER", is_email_verified := true,
    is_active := true, last_login_at := none, created_at := 0,
    updated_at := 0, deleted_at := some 50 }

/-- Sample still-valid unredeemed email-verification token. -/
def tokenOld : VerificationToken :=
  { id := 1, user_id := some 7, token := "OLD",
    token_type := "email_verification", expires_at := 1000,
    used_at := none, created_at := 0, updated_at := 0 }

/-- Sample unredeemed password-reset token whose random string will
collide with a later insertion. -/
def tokenDup : VerificationToken :=
  { id := 5, user_id := some 9, token := "DUP",
    token_type := "password_reset", expires_at := 500,
    used_at := none, created_at := 0, updated_at := 0 }

/-- Sample valid registration dto. -/
def dtoDave : CreateUserDto :=
  { email := "dave@example.com", username := "dave",
    password := "Passw0rd!", full_name := none, avatar_url := none }

/-- Sample expired-but-well-signed session token claims. -/
def claimsExpired : Claims :=
  { sub := "1", exp := 50, iat := 0, email := "alice@example.com",
    role := "USER" }

/-- Sample unexpired session token claims. -/
def claimsLive : Claims :=
  { sub := "1", exp := 200, iat := 0, email := "alice@example.com",
    role := "USER" }

/-- Well-signed but expired token under `cfgSample` at time 100. -/
def jwtExpired : Jwt := .signed claimsExpired "s3cret"

/-- Unexpired token carrying a corrupted signature under `cfgSample`. -/
def jwtCorrupted : Jwt := .signed claimsLive "wrong"

/-- GitHub profile response lacking an email, as in the spec scenario. -/
def octocatProfile : OAuthProfile :=
  { idStr := none, idText := "583231", email := none,
    login := some "octocat", name := some "The Octocat",
    avatar_url := some "https://avatars.example/octocat.png" }

/-- Normalized profile the GitHub extraction produces for
`octocatProfile`. -/
def octocatInfo : OAuthUserInfo :=
  { provider_user_id := "583231", email := "octocat@github.user",
    name := "The Octocat",
    avatar_url := some "https://avatars.example/octocat.png" }

/-- Soft-deleted account still holding the username "octocat": invisible
to the de-duplication loop (which filters on the soft-delete marker) but
still covered by the username unique constraint. -/
def ghostUser : User :=
  { id := 9, email := "ghost@example.com", username := "octocat",
    password_hash := hashPassword "Passw0rd!", full_name := none,
    avatar_url := none, global_role := "USER", is_email_verified := true,
    is_active := true, last_login_at := none, created_at := 0,
    updated_at := 0, deleted_at := some 50 }

/-! Helper lemmas about the update model, shared by several claim
theorems. -/

theorem applyUpdate_no_match {α : Type} (p : α → Bool) (f : α → α) :
    ∀ l : List α, (∀ a ∈ l, p a = false) → applyUpdate p f l = (l, none) := by
  intro l h
  induction l with
  | nil => rfl
  | cons a rest ih =>
      have ha : p a = false := h a (by simp)
      have hrest : applyUpdate p f rest = (rest, none) :=
        ih (fun b hb => h b (by simp [hb]))
      simp [applyUpdate, ha, hrest]

theorem applyUpdate_fst_no_sat {α : Type} (p : α → Bool) (f : α → α)
    (hpf : ∀ a, p a = true → p (f a) = false) :
    ∀ l : List α, ∀ b ∈ (applyUpdate p f l).1, p b = false := by
  intro l
  induction l with
  | nil => intro b hb; simp [applyUpdate] at hb
  | cons a rest ih =>
      intro b hb
      by_cases ha : p a = true
      · simp [applyUpdate, ha] at hb
        rcases hb with hb | hb
        · rw [hb]; exact hpf a ha
        · exact ih b hb
      · rw [Bool.not_eq_true] at ha
        simp [applyUpdate, ha] at hb
        rcases hb with hb | hb
        · rw [hb]; exact ha
        · exact ih b hb

theorem applyUpdate_isSome_of_mem {α : Type} (p : α → Bool) (f : α → α) :
    ∀ (l : List α) (a : α), a ∈ l → p a = true →
      ((applyUpdate p f l).2).isSome = true := by
  intro l
  induction l with
  | nil => intro a ha; simp at ha
  | cons b rest ih =>
      intro a ha hp
      by_cases hb : p b = true
      · simp [applyUpdate, hb]
      · rw [Bool.not_eq_true] at hb
        simp [applyUpdate, hb]
        rcases List.mem_cons.mp ha with h | h
        · rw [h] at hp; rw [hp] at hb; cases hb
        · exact ih a h hp

theorem applyUpdate_append_single {α : Type} (p : α → Bool) (f : α → α)
    (l : List α) (x : α) (hl : ∀ a ∈ l, p a = false) (hx : p x = true) :
    applyUpdate p f (l ++ [x]) = (l ++ [f x], some (f x)) := by
  induction l with
  | nil => simp [applyUpdate, hx]
  | cons a rest ih =>
      have ha : p a = false := hl a (by simp)
      have hrest := ih (fun b hb => hl b (by simp [hb]))
      simp [applyUpdate, ha, hrest]

theorem runUpdate_eq_pair {α : Type} (p : α → Bool) (f : α → α) (l : List α) :
    runUpdate p f l =
      ((applyUpdate p f l).1,
        match (applyUpdate p f l).2 with
        | some a => Except.ok a
        | none => Except.error DatabaseError.NotFound) := by
  unfold runUpdate
  dsimp only
  cases (applyUpdate p f l).2 <;> rfl

theorem runUpdate_no_match {α : Type} (p : α → Bool) (f : α → α) (l : List α)
    (h : ∀ a ∈ l, p a = false) : runUpdate p f l = (l, .error .NotFound) := by
  rw [runUpdate_eq_pair, applyUpdate_no_match p f l h]

theorem find_by_username_isOk (users : List User) (n : String) :
    (UserRepository.find_by_username users n).isOk =
      (users.find? (fun u => u.username == n && u.deleted_at.isNone)).isSome := by
  unfold UserRepository.find_by_username
  cases users.find? (fun u => u.username == n && u.deleted_at.isNone) <;> rfl

theorem verify_token_isOk_eq (tokens : List VerificationToken) (now : Int)
    (tok ty : String) :
    (TokenRepository.verify_token tokens now tok ty).isOk =
      (tokens.find? (tokenRedeemable now tok ty)).isSome := by
  unfold TokenRepository.verify_token
  cases tokens.find? (tokenRedeemable now tok ty) <;> rfl

theorem tokenRedeemable_iff (now : Int) (tok ty : String)
    (t : VerificationToken) :
    tokenRedeemable now tok ty t = true ↔
      t.token = tok ∧ t.token_type = ty ∧ t.used_at = none ∧
        now < t.expires_at := by
  simp [tokenRedeemable, Option.isNone_iff_eq_none, and_assoc]

/-! Claim theorems. -/

/-- C7: for every account and configuration with a positive access-token
TTL, verifying the access token immediately after minting it succeeds
and the recovered claims carry the account id as subject and the
account role as role. -/
theorem mint_then_verify_roundtrip (cfg : AppConfig) (now : Int) (u : User)
    (h : 0 < cfg.jwt_expiration) :
    ∃ c : Claims,
      TokenService.verify_token cfg now
        (TokenService.generate_tokens cfg now u).1 = .ok c ∧
      c.sub = toString u.id ∧ c.role = u.global_role := by
  refine ⟨{ sub := toString u.id, exp := now + cfg.jwt_expiration, iat := now,
            email := u.email, role := u.global_role }, ?_, rfl, rfl⟩
  have hlt : ¬ (now + cfg.jwt_expiration ≤ now) := by omega
  simp [TokenService.verify_token, TokenService.generate_tokens, hlt]

/-- Witness for C7 at the sample configuration, account and time. -/
theorem mint_then_verify_roundtrip_witness :
    (0 : Int) < cfgSample.jwt_expiration ∧
    ∃ c : Claims,
      TokenService.verify_token cfgSample 100
        (TokenService.generate_tokens cfgSample 100 userAlice).1 = .ok c ∧
      c.sub = toString userAlice.id ∧ c.role = userAlice.global_role :=
  ⟨by decide, mint_then_verify_roundtrip cfgSample 100 userAlice (by decide)⟩

/-- C6 counterexample: an expired well-signed token and a token with a
corrupted signature both fail verification with the SAME error kind,
`AppError.Authentication`; only the carried message text differs, so
the failures are not distinguishable in kind. -/
theorem verify_token_same_kind_counterexample :
    TokenService.verify_token cfgSample 100 jwtExpired =
      .error (.Authentication "Token sudah expired") ∧
    TokenService.verify_token cfgSample 100 jwtCorrupted =
      .error (.Authentication "Token tidak valid") ∧
    (AppError.Authentication "Token sudah expired").kind =
      (AppError.Authentication "Token tidak valid").kind := by
  refine ⟨rfl, rfl, rfl⟩

/-- C6 amended: an expiry-only failure yields
`Authentication "Token sudah expired"` and any signature or format
failure yields `Authentication "Token tidak valid"` — the same error
variant, distinguishable only by the message string. -/
theorem verify_token_expired_vs_invalid (cfg : AppConfig) (now : Int)
    (c : Claims) (s raw : String) :
    (s = cfg.jwt_secret → c.exp ≤ now →
      TokenService.verify_token cfg now (.signed c s) =
        .error (.Authentication "Token sudah expired")) ∧
    (s ≠ cfg.jwt_secret →
      TokenService.verify_token cfg now (.signed c s) =
        .error (.Authentication "Token tidak valid")) ∧
    (TokenService.verify_token cfg now (.malformed raw) =
      .error (.Authentication "Token tidak valid")) ∧
    (AppError.Authentication "Token sudah expired").kind =
      (AppError.Authentication "Token tidak valid").kind ∧
    "Token sudah expired" ≠ "Token tidak valid" := by
  refine ⟨?_, ?_, rfl, rfl, by decide⟩
  · intro hs he
    subst hs
    simp [TokenService.verify_token, he]
  · intro hs
    simp [TokenService.verify_token, hs]

/-- Witness for the amended C6 at the sample tokens. -/
theorem verify_token_expired_vs_invalid_witness :
    TokenService.verify_token cfgSample 100 jwtExpired =
      .error (.Authentication "Token sudah expired") ∧
    TokenService.verify_token cfgSample 100 jwtCorrupted =
      .error (.Authentication "Token tidak valid") := by
  constructor
  · exact (verify_token_expired_vs_invalid cfgSample 100 claimsExpired
      "s3cret" "x").1 rfl (by decide)
  · exact (verify_token_expired_vs_invalid cfgSample 100 claimsLive
      "wrong" "x").2.1 (by decide)

/-- C1 (code bug): evaluated at the failing input, the password-reset
request for a non-existent email returns
`NotFound "User not found"` to the caller — a distinguishing error —
while the same request for an existing email returns the generic
acknowledgement; the two observable outcomes differ, contradicting the
required indistinguishability.  The only part of the claim the code
honours is that a token row is created exactly when the account is
found: the failing run leaves the token table unchanged, the successful
run inserts one row. -/
theorem request_password_reset_reveals_missing_account :
    handleRequestPasswordReset ⟨[userAlice], []⟩ 100 "FRESH" 10
        (some "ghost@nowhere.test") =
      (⟨[userAlice], []⟩, .error (.NotFound "User not found")) ∧
    (handleRequestPasswordReset ⟨[userAlice], []⟩ 100 "FRESH" 10
        (some "alice@example.com")).2 =
      .ok "Password reset link sent if the email exists in our system" ∧
    (handleRequestPasswordReset ⟨[userAlice], []⟩ 100 "FRESH" 10
        (some "alice@example.com")).1.tokens =
      [{ id := 10, user_id := some 1, token := "FRESH",
         token_type := "password_reset", expires_at := 3700,
         used_at := none, created_at := 100, updated_at := 100 }] ∧
    (Except.error (AppError.NotFound "User not found") :
        Except AppError String) ≠
      .ok "Password reset link sent if the email exists in our system" :=
  ⟨rfl, rfl, rfl, by simp⟩

/-- C3 (code bug): evaluated at the failing input, issuing a fresh
email-verification token for account 7 through the email service while
the still-valid unredeemed token `tokenOld` of the same account and
purpose exists leaves `tokenOld` redeemable: after the issuance both
the old and the new token verify successfully, so the invalidate-on-issue
invariant does not hold on this path. -/
theorem email_verification_issue_keeps_old_token_redeemable :
    (EmailService.generate_verification_token [tokenOld] 10 "NEW" 2 7).2 =
      .ok "NEW" ∧
    tokenOld.user_id = some 7 ∧
    tokenOld.token_type = TOKEN_TYPE_EMAIL_VERIFICATION ∧
    tokenOld.used_at = none ∧
    TokenRepository.verify_token
        (EmailService.generate_verification_token [tokenOld] 10 "NEW" 2 7).1
        10 "OLD" TOKEN_TYPE_EMAIL_VERIFICATION = .ok tokenOld ∧
    (TokenRepository.verify_token
        (EmailService.generate_verification_token [tokenOld] 10 "NEW" 2 7).1
        10 "NEW" TOKEN_TYPE_EMAIL_VERIFICATION).isOk = true :=
  ⟨rfl, rfl, rfl, rfl, rfl, rfl⟩

/-- C5 (code bug): evaluated at the failing input, registration whose
freshly generated token string collides with an existing token row
fails as a whole — yet the just-created account row remains persisted,
so account insert and token insert do not form an atomic unit. -/
theorem register_with_verification_not_atomic :
    (AuthService.register_user_with_verification ⟨[], [tokenDup]⟩ 100
        dtoDave 11 "DUP" 12).2 =
      .error (.Database (.Duplicate "Token already exists")) ∧
    ((AuthService.register_user_with_verification ⟨[], [tokenDup]⟩ 100
        dtoDave 11 "DUP" 12).1.users.any
      (fun u => u.email == "dave@example.com")) = true :=
  ⟨rfl, rfl⟩

/-- C4 counterexample: an inactive account with the correct password
logs in successfully — the active flag is never consulted — and an
identifier that is a username of an existing account rather than an
email is rejected by dto validation before any lookup, so there is no
username resolution path. -/
theorem login_counterexample :
    ((AuthService.login [userInactive] cfgSample 100 "bob@example.com"
        "Secret1!").2).isOk = true ∧
    userInactive.is_active = false ∧
    userInactive.username = "bob" ∧
    (AuthService.login [userInactive] cfgSample 100 "bob" "Secret1!").2 =
      .error (.Validation "email: Invalid email format") :=
  ⟨rfl, rfl, rfl, rfl⟩

/-- C4 amended: for every syntactically valid login dto, the account is
resolved by email only; an unknown email and a wrong password both fail
with the single generic message
`Authentication "Invalid email or password"`; and when the email
resolves and the password matches, login succeeds without consulting
the active flag, so an inactive account is not rejected. -/
theorem login_email_only_generic_failure
    (users : List User) (cfg : AppConfig) (now : Int) (e pw : String)
    (hv : LoginDto.valid e pw = true) :
    (UserRepository.find_by_email users e = .error .NotFound →
      AuthService.login users cfg now e pw =
        (users, .error (.Authentication "Invalid email or password"))) ∧
    (∀ u, UserRepository.find_by_email users e = .ok u →
      u.password_hash ≠ hashPassword pw →
      AuthService.login users cfg now e pw =
        (users, .error (.Authentication "Invalid email or password"))) ∧
    (∀ u, UserRepository.find_by_email users e = .ok u →
      u.password_hash = hashPassword pw →
      ((AuthService.login users cfg now e pw).2).isOk = true) := by
  refine ⟨?_, ?_, ?_⟩
  · intro h
    simp [AuthService.login, hv, h]
  · intro u h hne
    have hbeq : (u.password_hash == hashPassword pw) = false := by
      simp [hne]
    simp [AuthService.login, hv, h, verify_password, hbeq]
  · intro u h heq
    have hfind : users.find? (fun v => v.email == e && v.deleted_at.isNone) =
        some u := by
      unfold UserRepository.find_by_email at h
      cases hf : users.find? (fun v => v.email == e && v.deleted_at.isNone) with
      | some w => rw [hf] at h; cases h; rfl
      | none => rw [hf] at h; cases h
    have hmem : u ∈ users := List.mem_of_find?_eq_some hfind
    have hpu := List.find?_some hfind
    simp only [Bool.and_eq_true] at hpu
    have hup : ((applyUpdate (fun v => v.id == u.id && v.deleted_at.isNone)
        (fun v => { v with last_login_at := some now, updated_at := now })
        users).2).isSome = true :=
      applyUpdate_isSome_of_mem _ _ users u hmem (by simp [hpu.2])
    obtain ⟨u2, hu2⟩ := Option.isSome_iff_exists.mp hup
    simp [AuthService.login, hv, h, verify_password, heq,
      UserRepository.update_last_login, runUpdate, hu2, Except.isOk,
      Except.toBool]

/-- Witness for the amended C4: the unknown-email case at a concrete
store yields the generic authentication failure. -/
theorem login_email_only_generic_failure_witness :
    AuthService.login [userInactive] cfgSample 100 "ghost@nowhere.test"
        "Secret1!" =
      ([userInactive], .error (.Authentication "Invalid email or password")) :=
  (login_email_only_generic_failure [userInactive] cfgSample 100
    "ghost@nowhere.test" "Secret1!" (by decide)).1 rfl

/-- C2: a verification token redeems iff its redemption timestamp is
null and the current time is strictly before its expiry; a redeemable
token of the store is successfully marked used; after a successful
conditional mark-as-used no second mark-as-used of the same token can
succeed (the compare-and-set admits at most one redeemer); and when
every matching token is past expiry, redemption fails even if the token
was never redeemed. -/
theorem verification_token_single_use :
    (∀ (tokens : List VerificationToken) (now : Int) (tok ty : String),
      (TokenRepository.verify_token tokens now tok ty).isOk = true ↔
        ∃ t ∈ tokens, t.token = tok ∧ t.token_type = ty ∧
          t.used_at = none ∧ now < t.expires_at) ∧
    (∀ (tokens : List VerificationToken) (now : Int) (t : VerificationToken),
      t ∈ tokens → t.used_at = none →
        ((TokenRepository.mark_as_used tokens now t.id).2).isOk = true) ∧
    (∀ (tokens tokens2 : List VerificationToken) (now now2 : Int) (tid : Nat)
        (t : VerificationToken),
      TokenRepository.mark_as_used tokens now tid = (tokens2, .ok t) →
        (TokenRepository.mark_as_used tokens2 now2 tid).2 = .error .NotFound) ∧
    (∀ (tokens : List VerificationToken) (now : Int) (tok ty : String),
      (∀ t ∈ tokens, t.token = tok → t.token_type = ty → t.expires_at ≤ now) →
        TokenRepository.verify_token tokens now tok ty = .error .NotFound) := by
  refine ⟨?_, ?_, ?_, ?_⟩
  · intro tokens now tok ty
    rw [verify_token_isOk_eq, List.find?_isSome]
    constructor
    · rintro ⟨t, ht, hp⟩; exact ⟨t, ht, (tokenRedeemable_iff now tok ty t).mp hp⟩
    · rintro ⟨t, ht, hp⟩; exact ⟨t, ht, (tokenRedeemable_iff now tok ty t).mpr hp⟩
  · intro tokens now t hmem hnone
    have hsome := applyUpdate_isSome_of_mem
      (fun s => s.id == t.id && s.used_at.isNone)
      (fun s => { s with used_at := some now, updated_at := now })
      tokens t hmem (by simp [hnone])
    obtain ⟨t2, ht2⟩ := Option.isSome_iff_exists.mp hsome
    simp [TokenRepository.mark_as_used, runUpdate_eq_pair, ht2,
      Except.isOk, Except.toBool]
  · intro tokens tokens2 now now2 tid t hmark
    unfold TokenRepository.mark_as_used at hmark
    rw [runUpdate_eq_pair] at hmark
    have hfst : tokens2 = (applyUpdate (fun s => s.id == tid && s.used_at.isNone)
        (fun s => { s with used_at := some now, updated_at := now }) tokens).1 :=
      (congrArg Prod.fst hmark).symm
    have hno : ∀ b ∈ tokens2,
        (fun s : VerificationToken => s.id == tid && s.used_at.isNone) b = false := by
      rw [hfst]
      exact applyUpdate_fst_no_sat _ _ (by intro a ha; simp) tokens
    have hrun := runUpdate_no_match
      (fun s : VerificationToken => s.id == tid && s.used_at.isNone)
      (fun s => { s with used_at := some now2, updated_at := now2 }) tokens2 hno
    simp [TokenRepository.mark_as_used, hrun]
  · intro tokens now tok ty h
    have hfind : tokens.find? (tokenRedeemable now tok ty) = none := by
      rw [List.find?_eq_none]
      intro t ht hcontra
      have hprops := (tokenRedeemable_iff now tok ty t).mp hcontra
      exact absurd hprops.2.2.2 (not_lt.mpr (h t ht hprops.1 hprops.2.1))
    simp [TokenRepository.verify_token, hfind]

/-- Witness for C2: the sample token is marked used once successfully
and a second mark-as-used of it fails. -/
theorem verification_token_single_use_witness :
    ((TokenRepository.mark_as_used [tokenOld] 5 tokenOld.id).2).isOk = true ∧
    (TokenRepository.mark_as_used
        (TokenRepository.mark_as_used [tokenOld] 5 tokenOld.id).1 6
        tokenOld.id).2 = .error .NotFound := by
  constructor
  · exact verification_token_single_use.2.1 [tokenOld] 5 tokenOld (by simp) rfl
  · exact verification_token_single_use.2.2.1 [tokenOld] _ 5 6 tokenOld.id _ rfl

/-- C10: when every row carrying the looked-up email, username or id is
soft-deleted, the four repository operations used by the auth flows
behave exactly as if the account did not exist: the lookups return
NotFound, and the two updates return NotFound while leaving the table
unchanged. -/
theorem soft_deleted_accounts_invisible :
    (∀ (users : List User) (e : String),
      (∀ u ∈ users, u.email = e → u.deleted_at ≠ none) →
      UserRepository.find_by_email users e = .error .NotFound) ∧
    (∀ (users : List User) (n : String),
      (∀ u ∈ users, u.username = n → u.deleted_at ≠ none) →
      UserRepository.find_by_username users n = .error .NotFound) ∧
    (∀ (users : List User) (now : Int) (id : Nat),
      (∀ u ∈ users, u.id = id → u.deleted_at ≠ none) →
      UserRepository.update_last_login users now id =
        (users, .error .NotFound)) ∧
    (∀ (users : List User) (now : Int) (id : Nat) (b : Bool),
      (∀ u ∈ users, u.id = id → u.deleted_at ≠ none) →
      UserRepository.update_email_verification users now id b =
        (users, .error .NotFound)) := by
  refine ⟨?_, ?_, ?_, ?_⟩
  · intro users e h
    have hfind : users.find? (fun u => u.email == e && u.deleted_at.isNone) =
        none := by
      rw [List.find?_eq_none]
      intro u hu
      simp only [Bool.and_eq_true, beq_iff_eq, Option.isNone_iff_eq_none,
        not_and]
      intro he
      exact h u hu he
    simp [UserRepository.find_by_email, hfind]
  · intro users n h
    have hfind : users.find? (fun u => u.username == n && u.deleted_at.isNone) =
        none := by
      rw [List.find?_eq_none]
      intro u hu
      simp only [Bool.and_eq_true, beq_iff_eq, Option.isNone_iff_eq_none,
        not_and]
      intro hn
      exact h u hu hn
    simp [UserRepository.find_by_username, hfind]
  · intro users now id h
    have hno : ∀ u ∈ users,
        (fun v : User => v.id == id && v.deleted_at.isNone) u = false := by
      intro u hu
      by_cases hid : u.id = id
      · have hdel := h u hu hid
        rcases hd : u.deleted_at with _ | d
        · exact absurd hd hdel
        · simp [hd]
      · simp [hid]
    exact runUpdate_no_match _ _ users hno
  · intro users now id b h
    have hno : ∀ u ∈ users,
        (fun v : User => v.id == id && v.deleted_at.isNone) u = false := by
      intro u hu
      by_cases hid : u.id = id
      · have hdel := h u hu hid
        rcases hd : u.deleted_at with _ | d
        · exact absurd hd hdel
        · simp [hd]
      · simp [hid]
    exact runUpdate_no_match _ _ users hno

/-- Witness for C10: the sample soft-deleted account is invisible to
lookup by email and to the last-login update. -/
theorem soft_deleted_accounts_invisible_witness :
    UserRepository.find_by_email [userDeleted] "carol@example.com" =
      .error .NotFound ∧
    UserRepository.update_last_login [userDeleted] 100 userDeleted.id =
      ([userDeleted], .error .NotFound) :=
  ⟨soft_deleted_accounts_invisible.1 [userDeleted] "carol@example.com"
      (by decide),
   soft_deleted_accounts_invisible.2.2.1 [userDeleted] 100 userDeleted.id
      (by decide)⟩

/-- C8: whenever the profile extraction normalizes a profile that lacks
an email field into a user info record, the email it produces is the
synthetic placeholder native-login followed by at-sign, provider key and
".user" (the GitHub arm synthesizes it, the Google arm refuses to
normalize such a profile); in particular the octocat profile under
provider key github yields exactly "octocat@github.user". -/
theorem missing_email_placeholder :
    (∀ (p : OAuthProfile) (r : OAuthUserInfo),
      p.email = none → extract_user_info "github" p = .ok r →
      ∃ l, p.login = some l ∧ r.email = l ++ "@github.user") ∧
    (∀ (p : OAuthProfile) (r : OAuthUserInfo),
      p.email = none → extract_user_info "google" p ≠ .ok r) ∧
    "@github.user" = "@" ++ "github" ++ ".user" ∧
    extract_user_info "github" octocatProfile = .ok octocatInfo := by
  refine ⟨?_, ?_, rfl, rfl⟩
  · intro p r he hok
    have hgg : extract_user_info "github" p = extract_github p := rfl
    rw [hgg] at hok
    cases hl : p.login with
    | none =>
        simp only [extract_github, he, hl] at hok
        exact Except.noConfusion hok
    | some l =>
        simp only [extract_github, he, hl] at hok
        refine ⟨l, rfl, ?_⟩
        injection hok with h2
        rw [← h2]
  · intro p r he hok
    have hgg : extract_user_info "google" p = extract_google p := rfl
    rw [hgg] at hok
    cases hi : p.idStr with
    | none =>
        simp only [extract_google, hi] at hok
        exact Except.noConfusion hok
    | some pid =>
        simp only [extract_google, hi, he] at hok
        exact Except.noConfusion hok

/-- Witness for C8 at the octocat profile. -/
theorem missing_email_placeholder_witness :
    ∃ l, octocatProfile.login = some l ∧
      octocatInfo.email = l ++ "@github.user" :=
  missing_email_placeholder.1 octocatProfile octocatInfo rfl rfl

/-- Specification of the fuel-bounded de-duplication loop: as long as
some candidate within the fuel is free, the loop returns the first free
candidate at or after the starting attempt, and every earlier candidate
was taken. -/
theorem resolveUsernameAux_spec (users : List User) (base : String) :
    ∀ (fuel attempt : Nat),
      (∃ d, d ≤ fuel ∧
        usernameTaken users (usernameCandidate base (attempt + d)) = false) →
      ∃ k, resolveUsernameAux users base fuel attempt =
          usernameCandidate base k ∧
        attempt ≤ k ∧
        usernameTaken users (usernameCandidate base k) = false ∧
        ∀ j, attempt ≤ j → j < k →
          usernameTaken users (usernameCandidate base j) = true := by
  intro fuel
  induction fuel with
  | zero =>
      intro attempt h
      obtain ⟨d, hd, hfree⟩ := h
      have hd0 : d = 0 := Nat.le_zero.mp hd
      subst hd0
      rw [Nat.add_zero] at hfree
      exact ⟨attempt, rfl, Nat.le_refl _, hfree, by omega⟩
  | succ fuel ih =>
      intro attempt h
      by_cases htaken : usernameTaken users (usernameCandidate base attempt) = true
      · have h2 : ∃ d, d ≤ fuel ∧
            usernameTaken users
              (usernameCandidate base ((attempt + 1) + d)) = false := by
          obtain ⟨d, hd, hfree⟩ := h
          cases d with
          | zero =>
              rw [Nat.add_zero] at hfree
              rw [htaken] at hfree
              exact Bool.noConfusion hfree
          | succ d2 =>
              refine ⟨d2, by omega, ?_⟩
              have harith : attempt + (d2 + 1) = (attempt + 1) + d2 := by omega
              rw [harith] at hfree
              exact hfree
        obtain ⟨k, hk, hle, hfree, hall⟩ := ih (attempt + 1) h2
        refine ⟨k, ?_, by omega, hfree, ?_⟩
        · unfold resolveUsernameAux
          rw [if_pos htaken]
          exact hk
        · intro j hj1 hj2
          rcases Nat.lt_or_ge j (attempt + 1) with hj | hj
          · have hje : j = attempt := by omega
            rw [hje]
            exact htaken
          · exact hall j hj hj2
      · rw [Bool.not_eq_true] at htaken
        refine ⟨attempt, ?_, Nat.le_refl _, htaken, by omega⟩
        unfold resolveUsernameAux
        rw [if_neg (by simp [htaken])]

/-- C9 counterexample: the octocat callback against a store whose only
row is a soft-deleted account still holding the username "octocat".
The normalized email matches no account (the lookup excludes the
soft-deleted row and its email differs anyway), so the provisioning
branch runs; the de-duplication loop also excludes the soft-deleted row
and settles on the bare local part, but the username unique constraint
spans all rows, so the insert fails with
`Validation "Username already exists"` and no account is provisioned —
no numeric suffix is ever appended for this collision. -/
theorem oauth_provision_counterexample :
    UserRepository.find_by_email [ghostUser] octocatInfo.email =
      .error .NotFound ∧
    ghostUser.deleted_at = some 50 ∧
    ghostUser.username = "octocat" ∧
    emailLocalPart octocatInfo.email = "octocat" ∧
    provision_oauth_user [ghostUser] 100 42 octocatInfo "RANDOMPASS" =
      ([ghostUser], .error (.Validation "Username already exists")) :=
  ⟨rfl, rfl, rfl, rfl, rfl⟩

/-- C9 amended: provisioning de-duplicates the username against
non-soft-deleted accounts only, while the unique constraint spans all
rows.  When some candidate within the loop fuel is free and no
soft-deleted account holds the resolved username (ids fresh), the new
account carries the fresh random password hash, ends email-verified,
and its username is the first free candidate of the deterministic
sequence local-part, local-part_1, local-part_2, ... with every earlier
candidate taken; when any row — in particular a soft-deleted account
invisible to the loop — still holds the resolved username, the insert
violates the constraint and the callback fails with
`Validation "Username already exists"`, provisioning nothing. -/
theorem oauth_provision_new_account
    (users : List User) (now : Int) (newId : Nat)
    (info : OAuthUserInfo) (randomPassword : String)
    (hemail : ∀ u ∈ users, u.email ≠ info.email)
    (hid : ∀ u ∈ users, u.id ≠ newId) :
    (∀ d0, d0 ≤ users.length →
      usernameTaken users
        (usernameCandidate (emailLocalPart info.email) d0) = false →
      (∀ u ∈ users, u.deleted_at ≠ none →
        u.username ≠ resolveUsername users (emailLocalPart info.email)) →
      ∃ (u : User) (users2 : List User),
        provision_oauth_user users now newId info randomPassword =
          (users2, .ok u) ∧
        u.is_email_verified = true ∧
        u.password_hash = hashPassword randomPassword ∧
        u.email = info.email ∧
        (∃ k, u.username = usernameCandidate (emailLocalPart info.email) k ∧
          usernameTaken users
            (usernameCandidate (emailLocalPart info.email) k) = false ∧
          ∀ j < k, usernameTaken users
            (usernameCandidate (emailLocalPart info.email) j) = true)) ∧
    ((∃ u ∈ users,
        u.username = resolveUsername users (emailLocalPart info.email)) →
      provision_oauth_user users now newId info randomPassword =
        (users, .error (.Validation "Username already exists"))) := by
  constructor
  · intro d0 hd0 hfree0 hdel
    obtain ⟨k, hk, -, hkfree, hkall⟩ :=
      resolveUsernameAux_spec users (emailLocalPart info.email)
        (users.length + 1) 0
        ⟨d0, by omega, by rw [Nat.zero_add]; exact hfree0⟩
    have huname : resolveUsername users (emailLocalPart info.email) =
        usernameCandidate (emailLocalPart info.email) k := by
      unfold resolveUsername
      exact hk
    have hnouser : ∀ u ∈ users,
        u.username ≠ usernameCandidate (emailLocalPart info.email) k := by
      intro u hu
      by_cases hdu : u.deleted_at = none
      · have hfindnone : users.find?
            (fun v => v.username == usernameCandidate (emailLocalPart info.email) k &&
              v.deleted_at.isNone) = none := by
          have hok := hkfree
          unfold usernameTaken at hok
          rw [find_by_username_isOk] at hok
          exact Option.not_isSome_iff_eq_none.mp (by simp [hok])
        have hnp := List.find?_eq_none.mp hfindnone u hu
        intro heq
        exact hnp (by simp [heq, hdu])
      · intro heq
        exact hdel u hu hdu (by rw [huname]; exact heq)
    have hanye : users.any (fun u => u.email == info.email) = false := by
      rw [List.any_eq_false]
      intro u hu
      simp [hemail u hu]
    have hanyu : users.any
        (fun u => u.username == usernameCandidate (emailLocalPart info.email) k) =
          false := by
      rw [List.any_eq_false]
      intro u hu
      simp [hnouser u hu]
    have hcreate : UserRepository.create users now newId
        { email := info.email,
          username := usernameCandidate (emailLocalPart info.email) k,
          password := randomPassword, full_name := some info.name,
          avatar_url := info.avatar_url } (hashPassword randomPassword) =
        (users ++ [provisionedRow now newId info randomPassword
            (usernameCandidate (emailLocalPart info.email) k)],
         .ok (provisionedRow now newId info randomPassword
            (usernameCandidate (emailLocalPart info.email) k))) := by
      simp [UserRepository.create, hanye, hanyu, provisionedRow]
    have happly := applyUpdate_append_single
      (fun v : User => v.id == newId && v.deleted_at.isNone)
      (fun v => { v with is_email_verified := true, updated_at := now })
      users
      (provisionedRow now newId info randomPassword
        (usernameCandidate (emailLocalPart info.email) k))
      (by
        intro a ha
        have hne : (a.id == newId) = false := by simp [hid a ha]
        simp [hne])
      (by simp [provisionedRow])
    have hupdate : UserRepository.update_email_verification
        (users ++ [provisionedRow now newId info randomPassword
          (usernameCandidate (emailLocalPart info.email) k)]) now newId true =
        (users ++ [{ provisionedRow now newId info randomPassword
            (usernameCandidate (emailLocalPart info.email) k) with
              is_email_verified := true, updated_at := now }],
         .ok { provisionedRow now newId info randomPassword
            (usernameCandidate (emailLocalPart info.email) k) with
              is_email_verified := true, updated_at := now }) := by
      unfold UserRepository.update_email_verification
      rw [runUpdate_eq_pair, happly]
    refine ⟨{ provisionedRow now newId info randomPassword
        (usernameCandidate (emailLocalPart info.email) k) with
          is_email_verified := true, updated_at := now },
      users ++ [{ provisionedRow now newId info randomPassword
        (usernameCandidate (emailLocalPart info.email) k) with
          is_email_verified := true, updated_at := now }],
      ?_, rfl, rfl, rfl,
      ⟨k, rfl, hkfree, fun j hj => hkall j (Nat.zero_le _) hj⟩⟩
    unfold provision_oauth_user
    dsimp only
    rw [huname, hcreate]
    dsimp only
    rw [show (provisionedRow now newId info randomPassword
        (usernameCandidate (emailLocalPart info.email) k)).id = newId from rfl]
    rw [hupdate]
    rfl
  · intro husername
    obtain ⟨u, hu, huname⟩ := husername
    have hanye : users.any (fun v => v.email == info.email) = false := by
      rw [List.any_eq_false]
      intro v hv
      simp [hemail v hv]
    have hanyu : users.any
        (fun v => v.username ==
          resolveUsername users (emailLocalPart info.email)) = true :=
      List.any_eq_true.mpr ⟨u, hu, by simp [huname]⟩
    unfold provision_oauth_user
    dsimp only
    simp [UserRepository.create, hanye, hanyu]

/-- Witness for the amended C9: provisioning the octocat identity next
to the alice account succeeds with the stated shape, and against the
store holding only the soft-deleted octocat username it fails with the
duplicate-username validation error. -/
theorem oauth_provision_new_account_witness :
    (∃ (u : User) (users2 : List User),
      provision_oauth_user [userAlice] 100 42 octocatInfo "RANDOMPASS" =
        (users2, .ok u) ∧
      u.is_email_verified = true ∧
      u.password_hash = hashPassword "RANDOMPASS" ∧
      u.email = octocatInfo.email ∧
      (∃ k, u.username = usernameCandidate (emailLocalPart octocatInfo.email) k ∧
        usernameTaken [userAlice]
          (usernameCandidate (emailLocalPart octocatInfo.email) k) = false ∧
        ∀ j < k, usernameTaken [userAlice]
          (usernameCandidate (emailLocalPart octocatInfo.email) j) = true)) ∧
    provision_oauth_user [ghostUser] 100 42 octocatInfo "RANDOMPASS" =
      ([ghostUser], .error (.Validation "Username already exists")) := by
  constructor
  · exact (oauth_provision_new_account [userAlice] 100 42 octocatInfo
      "RANDOMPASS" (by decide) (by decide)).1 0 (by decide) (by decide)
      (by decide)
  · exact (oauth_provision_new_account [ghostUser] 100 42 octocatInfo
      "RANDOMPASS" (by decide) (by decide)).2 ⟨ghostUser, by simp, by decide⟩

end Connect
